import Mathlib

/-!
Verification of the YTGrabber URL-classification and command-construction
logic (src/main.py). The Python string operations are embedded over
List Char: the operator in becomes pyIn, str.startswith becomes
pyStartsWith, str.strip becomes pyStrip. External subprocess results
(the yt-dlp probe and the two download invocations) are passed in as
explicit parameters, since the embedding is of the orchestration logic,
not of the network tools it drives.
-/

/-- Boolean list-prefix test, the computational core of pyStartsWith. -/
def chPre : List Char → List Char → Bool
  | [], _ => true
  | _ :: _, [] => false
  | a :: as, b :: bs => a == b && chPre as bs

/-- Boolean list-infix test, the computational core of pyIn. -/
def chSub : List Char → List Char → Bool
  | n, [] => n.isEmpty
  | n, b :: bs => chPre n (b :: bs) || chSub n bs

theorem chPre_iff (l₁ l₂ : List Char) : chPre l₁ l₂ = true ↔ l₁ <+: l₂ := by
  induction l₂ generalizing l₁ with
  | nil =>
    cases l₁ with
    | nil => simp [chPre]
    | cons a as => simp [chPre]
  | cons b bs ih =>
    cases l₁ with
    | nil => simp [chPre]
    | cons a as =>
      simp [chPre, List.cons_prefix_cons, ih, and_comm]

theorem chSub_iff (l₁ l₂ : List Char) : chSub l₁ l₂ = true ↔ l₁ <:+: l₂ := by
  induction l₂ with
  | nil => cases l₁ <;> simp [chSub, List.isEmpty]
  | cons b bs ih =>
    simp [chSub, chPre_iff, ih, List.infix_cons_iff]

/-- Python: needle in hay (substring containment). -/
def pyIn (needle hay : String) : Bool := chSub needle.toList hay.toList

/-- Python: s.startswith(p). -/
def pyStartsWith (s p : String) : Bool := chPre p.toList s.toList

/-- ASCII whitespace recognized by Python str.strip (the default set). -/
def pyIsSpace (c : Char) : Bool :=
  c == ' ' || c == '\t' || c == '\n' || c == '\x0b' || c == '\x0c' || c == '\r'

/-- Python: s.strip() restricted to the ASCII whitespace characters. -/
def pyStrip (s : String) : String :=
  ⟨((s.toList.dropWhile pyIsSpace).reverse.dropWhile pyIsSpace).reverse⟩

theorem toList_append (a b : String) : (a ++ b).toList = a.toList ++ b.toList := by
  cases a; cases b; rfl

/-- YTGrabber.normalize_url (src/main.py lines 133-144): a leading @ is
expanded to a channel-handle URL, bare recognized hosts get https://
prepended, everything else passes through unchanged. -/
def normalize_url (url : String) : String :=
  if pyStartsWith url "@" then "https://www.youtube.com/" ++ url
  else if !(pyStartsWith url "http://" || pyStartsWith url "https://") &&
          (pyStartsWith url "youtube.com" || pyStartsWith url "www.youtube.com" ||
           pyStartsWith url "m.youtube.com" || pyStartsWith url "youtu.be")
  then "https://" ++ url
  else url

/-- The channel-path markers tested by YTGrabber.get_content_type
(src/main.py line 155), in source order. -/
def channel_markers : List String := ["/c/", "/channel/", "/user/", "@"]

/-- The channel-path markers tested by YTGrabber.probe_url_type
(src/main.py line 181), in source order. -/
def probe_channel_markers : List String := ["/channel/", "/c/", "/user/", "@"]

/-- The video markers tested by YTGrabber.probe_url_type
(src/main.py line 182). -/
def probe_video_markers : List String := ["watch?v=", "/shorts/"]

/-- YTGrabber.probe_url_type (src/main.py lines 168-188). The external
yt-dlp invocation is modelled by the parameter pr: none stands for an
exception while launching or running the subprocess, some out for the
stdout text it produced. The source strips the stdout, checks list=,
then the channel markers minus explicit video markers, and defaults to
video, also on any exception. -/
def probe_url_type (pr : Option String) (url : String) : String :=
  match pr with
  | none => "video"
  | some out =>
    let output_url := pyStrip out
    if pyIn "list=" output_url then "playlist"
    else if probe_channel_markers.any (fun p => pyIn p output_url) then
      if !(probe_video_markers.any (fun p => pyIn p output_url)) then "channel"
      else "video"
    else "video"

/-- YTGrabber.get_content_type (src/main.py lines 146-166): normalize,
then shorts, then channel markers (with the /videos refinement and the
probe delegation), then list=, then the video default. The parameter pr
models the yt-dlp probe outcome exactly as in probe_url_type. -/
def get_content_type (pr : Option String) (url : String) : String :=
  let u := normalize_url url
  if pyIn "/shorts/" u then "video"
  else if channel_markers.any (fun p => pyIn p u) then
    if pyIn "/videos" u then "channel" else probe_url_type pr u
  else if pyIn "list=" u then "playlist"
  else "video"

/-- The classification rules in the fixed order the specification
states them, written out as the spec phrases them, to be compared with
get_content_type as translated from the source. -/
def classify_spec_order (pr : Option String) (url : String) : String :=
  let u := normalize_url url
  if pyIn "/shorts/" u then "video"
  else if pyIn "/c/" u || pyIn "/channel/" u || pyIn "/user/" u || pyIn "@" u then
    if pyIn "/videos" u then "channel" else probe_url_type pr u
  else if pyIn "list=" u then "playlist"
  else "video"

/-- Claim C1: get_content_type applies its rules in the fixed order
shorts, channel markers (with the /videos split and probe delegation),
list=, default video; and the probe step returns video on failure. -/
theorem get_content_type_decision_order (pr : Option String) (url : String) :
    get_content_type pr url = classify_spec_order pr url ∧
    probe_url_type none url = "video" := by
  constructor
  · simp only [get_content_type, classify_spec_order, channel_markers,
      List.any_cons, List.any_nil, Bool.or_false, Bool.or_assoc]
  · rfl

/-- Claim C2 counterexample: a URL containing list= and not /shorts/ on
which get_content_type does not return playlist. The @ channel marker
fires first and delegates to the probe, which defaults to video when
the probe fails. -/
theorem list_eq_not_always_playlist_cex :
    pyIn "list=" "https://www.youtube.com/@abc?list=xyz" = true ∧
    pyIn "/shorts/" "https://www.youtube.com/@abc?list=xyz" = false ∧
    get_content_type none "https://www.youtube.com/@abc?list=xyz" = "video" := by
  refine ⟨by decide, by decide, by decide⟩

/-- Claim C2 as amended: for every URL whose normalized form contains
list=, does not contain /shorts/, and contains none of the channel-path
markers, get_content_type returns playlist. -/
theorem list_eq_without_channel_marker_playlist (pr : Option String) (url : String)
    (h1 : pyIn "list=" (normalize_url url) = true)
    (h2 : pyIn "/shorts/" (normalize_url url) = false)
    (h3 : channel_markers.any (fun p => pyIn p (normalize_url url)) = false) :
    get_content_type pr url = "playlist" := by
  simp [get_content_type, h1, h2, h3]

/-- Claim C2 amended witness at a concrete playlist URL. -/
theorem list_eq_without_channel_marker_playlist_witness :
    get_content_type none "https://www.youtube.com/playlist?list=PL123" = "playlist" :=
  list_eq_without_channel_marker_playlist none "https://www.youtube.com/playlist?list=PL123"
    (by decide) (by decide) (by decide)

/-- Claim C3: a URL whose normalized form contains /shorts/ is
classified video, whatever other markers it contains and whatever the
probe would report. -/
theorem shorts_always_video (pr : Option String) (url : String)
    (h : pyIn "/shorts/" (normalize_url url) = true) :
    get_content_type pr url = "video" := by
  simp [get_content_type, h]

/-- Claim C3 witness at a shorts URL that also carries a channel marker
and a list= marker. -/
theorem shorts_always_video_witness :
    get_content_type (some "https://www.youtube.com/@abc")
      "https://www.youtube.com/@abc/shorts/dQw?list=PL1" = "video" :=
  shorts_always_video (some "https://www.youtube.com/@abc")
    "https://www.youtube.com/@abc/shorts/dQw?list=PL1" (by decide)

/-- Claim C4: an input starting with @ is normalized by prepending the
channel-handle base URL to the whole input. -/
theorem normalize_url_at_handle (url : String)
    (h : pyStartsWith url "@" = true) :
    normalize_url url = "https://www.youtube.com/" ++ url := by
  simp [normalize_url, h]

/-- Claim C4 witness at a concrete handle. -/
theorem normalize_url_at_handle_witness :
    normalize_url "@somechannel" = "https://www.youtube.com/" ++ "@somechannel" :=
  normalize_url_at_handle "@somechannel" (by decide)

/-- probe_url_type only ever produces one of the three content types. -/
theorem probe_url_type_mem (pr : Option String) (url : String) :
    probe_url_type pr url = "video" ∨ probe_url_type pr url = "playlist" ∨
    probe_url_type pr url = "channel" := by
  cases pr with
  | none => left; rfl
  | some out =>
    simp only [probe_url_type]
    split
    · right; left; rfl
    · split
      · split
        · right; right; rfl
        · left; rfl
      · left; rfl

/-- Claim C9: for every input and every probe outcome, get_content_type
returns exactly one of video, playlist, channel. -/
theorem get_content_type_mem (pr : Option String) (url : String) :
    get_content_type pr url = "video" ∨ get_content_type pr url = "playlist" ∨
    get_content_type pr url = "channel" := by
  simp only [get_content_type]
  split
  · left; rfl
  · split
    · split
      · right; right; rfl
      · exact probe_url_type_mem pr (normalize_url url)
    · split
      · right; left; rfl
      · left; rfl

/-- Claim C10: normalize_url is idempotent. Each rewrite rule produces
a string starting with https://, on which no rule fires again, and the
passthrough case is unchanged by construction. -/
theorem normalize_url_idempotent (url : String) :
    normalize_url (normalize_url url) = normalize_url url := by
  unfold normalize_url
  split
  · cases url; rfl
  · split
    · cases url; rfl
    · rfl

/-- The downloads folder fixed in YTGrabber.__init__ (src/main.py
line 34). -/
def downloads_folder : String := "Downloads"

/-- The output path template of YTGrabber.build_download_command
(src/main.py lines 211-218), keyed on the content type string with the
same fallthrough as the source: anything other than video and playlist
takes the channel template. -/
def output_template (content_type ts : String) : String :=
  if content_type = "video" then
    downloads_folder ++ "/%(title)s_" ++ ts ++ ".%(ext)s"
  else if content_type = "playlist" then
    downloads_folder ++ "/%(playlist_title)s/%(title)s_" ++ ts ++ ".%(ext)s"
  else
    downloads_folder ++ "/%(uploader)s/%(title)s_" ++ ts ++ ".%(ext)s"

/-- The base options of YTGrabber.build_download_command (src/main.py
lines 221-232). The user agent and cookie-file path are produced by
random choice and file creation in the source, so they enter as
parameters. -/
def base_cmd (ua cookie tmpl : String) : List String :=
  ["yt-dlp", "--ignore-errors", "--no-warnings", "--geo-bypass", "--add-metadata",
   "--user-agent", ua, "--cookies", cookie, "--output", tmpl, "--no-overwrites",
   "--continue"]

/-- The format-specific options of YTGrabber.build_download_command
(src/main.py lines 235-251). -/
def format_flags (format_type : String) : List String :=
  if format_type = "audio" then
    ["--format", "bestaudio", "--extract-audio", "--audio-format", "mp3",
     "--audio-quality", "192K"]
  else if format_type = "best" then
    ["--format", "bestvideo+bestaudio/best", "--merge-output-format", "mp4"]
  else
    ["--format", "best", "--merge-output-format", "mp4"]

/-- The content-specific options of YTGrabber.build_download_command
(src/main.py lines 254-255). -/
def limit_flags (content_type limit : String) : List String :=
  if (content_type = "playlist" ∨ content_type = "channel") ∧ limit ≠ "all" then
    ["--playlist-items", "1-" ++ limit]
  else []

/-- YTGrabber.build_download_command (src/main.py lines 207-263): base
options, then format options, then the playlist range, then the verbose
flag and the URL. The timestamp ts is strftime of the current time in
the source and enters as a parameter. -/
def build_download_command (url content_type format_type limit ts ua cookie : String) :
    List String :=
  base_cmd ua cookie (output_template content_type ts) ++ format_flags format_type ++
    limit_flags content_type limit ++ ["--verbose", url]

/-- The output path template of YTGrabber.download_fallback (src/main.py
lines 337-344). -/
def fallback_template (content_type ts : String) : String :=
  if content_type = "video" then
    downloads_folder ++ "/%(title)s_fallback_" ++ ts ++ ".%(ext)s"
  else if content_type = "playlist" then
    downloads_folder ++ "/%(playlist_title)s/%(title)s_fallback_" ++ ts ++ ".%(ext)s"
  else
    downloads_folder ++ "/%(uploader)s/%(title)s_fallback_" ++ ts ++ ".%(ext)s"

/-- The reduced command of YTGrabber.download_fallback (src/main.py
lines 346-364): fewer base flags, simplified format selection, the same
playlist range rule, the URL last, and no verbose flag. -/
def fallback_cmd (url content_type format_type limit ts : String) : List String :=
  ["yt-dlp", "--ignore-errors", "--format", "best", "--output",
   fallback_template content_type ts, "--no-overwrites", "--geo-bypass"]
  ++ (if format_type = "audio" then ["--extract-audio", "--audio-format", "mp3"] else [])
  ++ limit_flags content_type limit
  ++ [url]

/-- Outcome of one external subprocess: its exit code, or an exception
raised while launching or streaming it. -/
inductive ProcResult where
  | exits : Int → ProcResult
  | raises : ProcResult
deriving DecidableEq

/-- YTGrabber.download_fallback (src/main.py lines 366-401): true
exactly when the fallback subprocess exits with code 0; a non-zero exit
or an exception yields false, with no further retry. -/
def download_fallback (res : ProcResult) : Bool :=
  match res with
  | .exits c => c == 0
  | .raises => false

/-- YTGrabber.download (src/main.py lines 265-330): normalize the URL,
build and run the primary command, and on a non-zero exit or an
exception run download_fallback exactly once. The result carries the
overall success flag, the primary command that was executed, and the
list of fallback commands invoked, in order. -/
def download (primary fallbackRes : ProcResult)
    (url content_type format_type limit ts ua cookie : String) :
    Bool × List String × List (List String) :=
  let u := normalize_url url
  let cmd := build_download_command u content_type format_type limit ts ua cookie
  match primary with
  | .exits c =>
    if c == 0 then (true, cmd, [])
    else (download_fallback fallbackRes, cmd,
      [fallback_cmd u content_type format_type limit ts])
  | .raises =>
    (download_fallback fallbackRes, cmd,
      [fallback_cmd u content_type format_type limit ts])

/-- Claim C5: a primary exit code 0 returns true with no fallback; any
primary failure triggers exactly one fallback invocation, with the
reduced command; a fallback failure makes download return false with no
second retry. -/
theorem download_retry_policy (primary fallbackRes : ProcResult)
    (url content_type format_type limit ts ua cookie : String) :
    (primary = ProcResult.exits 0 →
      download primary fallbackRes url content_type format_type limit ts ua cookie
        = (true, build_download_command (normalize_url url) content_type format_type limit ts ua cookie, [])) ∧
    (primary ≠ ProcResult.exits 0 →
      (download primary fallbackRes url content_type format_type limit ts ua cookie).2.2
        = [fallback_cmd (normalize_url url) content_type format_type limit ts]) ∧
    (primary ≠ ProcResult.exits 0 → fallbackRes ≠ ProcResult.exits 0 →
      download primary fallbackRes url content_type format_type limit ts ua cookie
        = (false, build_download_command (normalize_url url) content_type format_type limit ts ua cookie,
           [fallback_cmd (normalize_url url) content_type format_type limit ts])) := by
  refine ⟨fun h0 => ?_, fun hne => ?_, fun hne hfb => ?_⟩
  · subst h0; simp [download]
  · cases primary with
    | exits c =>
      have hc : ¬(c = 0) := fun h => hne (by rw [h])
      simp [download, hc]
    | raises => simp [download]
  · have hfb' : download_fallback fallbackRes = false := by
      cases fallbackRes with
      | exits c =>
        have hc : ¬(c = 0) := fun h => hfb (by rw [h])
        simp [download_fallback, hc]
      | raises => rfl
    cases primary with
    | exits c =>
      have hc : ¬(c = 0) := fun h => hne (by rw [h])
      simp [download, hc, hfb']
    | raises => simp [download, hfb']

/-- Claim C5 witness: a successful primary makes no fallback call, and
a failing primary followed by a failing fallback yields false with one
recorded reduced-command invocation. -/
theorem download_retry_policy_witness :
    download (ProcResult.exits 0) (ProcResult.exits 1) "u" "video" "best" "all" "t" "a" "c"
      = (true, build_download_command (normalize_url "u") "video" "best" "all" "t" "a" "c", []) ∧
    download (ProcResult.exits 1) ProcResult.raises "u" "video" "best" "all" "t" "a" "c"
      = (false, build_download_command (normalize_url "u") "video" "best" "all" "t" "a" "c",
         [fallback_cmd (normalize_url "u") "video" "best" "all" "t"]) := by
  constructor
  · exact (download_retry_policy (ProcResult.exits 0) (ProcResult.exits 1)
      "u" "video" "best" "all" "t" "a" "c").1 rfl
  · exact ((download_retry_policy (ProcResult.exits 1) ProcResult.raises
      "u" "video" "best" "all" "t" "a" "c").2.2 (by decide) (by decide))

/-- Claim C6: the output template is a flat file under the downloads
folder for video, a playlist-title subdirectory for playlist, an
uploader subdirectory for channel, and the filename always carries the
timestamp. A slash-free timestamp keeps the slash count at exactly one
path separator for video and exactly two for playlist and channel. -/
theorem output_template_by_type (ts : String) (h : ts.toList.count '/' = 0) :
    output_template "video" ts = "Downloads/" ++ ("%(title)s_" ++ ts ++ ".%(ext)s") ∧
    (output_template "video" ts).toList.count '/' = 1 ∧
    output_template "playlist" ts
      = "Downloads/" ++ ("%(playlist_title)s/" ++ ("%(title)s_" ++ ts ++ ".%(ext)s")) ∧
    (output_template "playlist" ts).toList.count '/' = 2 ∧
    output_template "channel" ts
      = "Downloads/" ++ ("%(uploader)s/" ++ ("%(title)s_" ++ ts ++ ".%(ext)s")) ∧
    (output_template "channel" ts).toList.count '/' = 2 ∧
    pyIn ts (output_template "video" ts) = true ∧
    pyIn ts (output_template "playlist" ts) = true ∧
    pyIn ts (output_template "channel" ts) = true := by
  have e1 : output_template "video" ts = "Downloads/%(title)s_" ++ ts ++ ".%(ext)s" := by
    cases ts; rfl
  have e2 : output_template "playlist" ts
      = "Downloads/%(playlist_title)s/%(title)s_" ++ ts ++ ".%(ext)s" := by
    cases ts; rfl
  have e3 : output_template "channel" ts
      = "Downloads/%(uploader)s/%(title)s_" ++ ts ++ ".%(ext)s" := by
    cases ts; rfl
  refine ⟨?_, ?_, ?_, ?_, ?_, ?_, ?_, ?_, ?_⟩
  · rw [e1]; cases ts; rfl
  · rw [e1, toList_append, toList_append, List.count_append, List.count_append, h]; decide
  · rw [e2]; cases ts; rfl
  · rw [e2, toList_append, toList_append, List.count_append, List.count_append, h]; decide
  · rw [e3]; cases ts; rfl
  · rw [e3, toList_append, toList_append, List.count_append, List.count_append, h]; decide
  · rw [e1]; unfold pyIn; rw [chSub_iff, toList_append, toList_append]
    exact ⟨_, _, rfl⟩
  · rw [e2]; unfold pyIn; rw [chSub_iff, toList_append, toList_append]
    exact ⟨_, _, rfl⟩
  · rw [e3]; unfold pyIn; rw [chSub_iff, toList_append, toList_append]
    exact ⟨_, _, rfl⟩

/-- Claim C6 witness at a concrete timestamp. -/
theorem output_template_by_type_witness :
    output_template "video" "20240101_120000"
      = "Downloads/" ++ ("%(title)s_" ++ "20240101_120000" ++ ".%(ext)s") ∧
    (output_template "playlist" "20240101_120000").toList.count '/' = 2 := by
  have h := output_template_by_type "20240101_120000" (by decide)
  exact ⟨h.1, h.2.2.2.1⟩

/-- The mutable state YTGrabber.create_cookie_file touches: the cached
cookie-file path (None before the first call) and the set of paths
existing on disk, as a list. -/
structure GrabberState where
  cookie_file : Option String
  files : List String
deriving DecidableEq

/-- YTGrabber.create_cookie_file (src/main.py lines 96-120): if a path
is cached and still exists, return it unchanged; otherwise create a
fresh temporary file, write the cookie lines, cache the path and return
it. The fresh name produced by tempfile.mktemp enters as a parameter;
the randomized cookie contents play no role in the claims and are not
modelled beyond the creation of the file. -/
def create_cookie_file (st : GrabberState) (fresh : String) : String × GrabberState :=
  match st.cookie_file with
  | some p =>
    if p ∈ st.files then (p, st)
    else (fresh, { cookie_file := some fresh, files := fresh :: st.files })
  | none => (fresh, { cookie_file := some fresh, files := fresh :: st.files })

/-- Any call leaves the cached path equal to the returned path. -/
theorem create_cookie_file_caches (st : GrabberState) (fresh : String) :
    (create_cookie_file st fresh).2.cookie_file = some (create_cookie_file st fresh).1 := by
  obtain ⟨cf, files⟩ := st
  cases cf with
  | none => rfl
  | some p =>
    by_cases hp : p ∈ files
    · simp [create_cookie_file, hp]
    · simp [create_cookie_file, hp]

/-- Claim C7: cookie-jar creation is idempotent within a run. After a
call returned path p in state st2, as long as p still exists a second
call returns the same p and leaves the state, including the file list,
untouched. -/
theorem create_cookie_file_idempotent (st st2 : GrabberState) (f1 f2 p : String)
    (h1 : create_cookie_file st f1 = (p, st2)) (h2 : p ∈ st2.files) :
    create_cookie_file st2 f2 = (p, st2) := by
  have hc := create_cookie_file_caches st f1
  rw [h1] at hc
  unfold create_cookie_file
  rw [hc]
  simp [h2]

/-- Claim C7 witness: a first call from the initial state, followed by
a second call with a different fresh name, returns the same path and
the same state. -/
theorem create_cookie_file_idempotent_witness :
    create_cookie_file ⟨some "/tmp/a.txt", ["/tmp/a.txt"]⟩ "/tmp/b.txt"
      = ("/tmp/a.txt", ⟨some "/tmp/a.txt", ["/tmp/a.txt"]⟩) :=
  create_cookie_file_idempotent ⟨none, []⟩ ⟨some "/tmp/a.txt", ["/tmp/a.txt"]⟩
    "/tmp/a.txt" "/tmp/b.txt" "/tmp/a.txt" (by decide) (by decide)

/-- The output template always starts with the downloads folder, so its
first character is D. -/
theorem output_template_head (content_type ts : String) :
    (output_template content_type ts).toList.head? = some 'D' := by
  unfold output_template downloads_folder
  split
  · cases ts; rfl
  · split
    · cases ts; rfl
    · cases ts; rfl

/-- The output template is never the playlist-items flag. -/
theorem output_template_ne_flag (content_type ts : String) :
    output_template content_type ts ≠ "--playlist-items" := by
  intro h
  have hh := output_template_head content_type ts
  rw [h] at hh
  exact absurd hh (by decide)

/-- The playlist-items flag occurs in the limit block exactly under the
source condition. -/
theorem limit_flags_iff (content_type limit : String) :
    "--playlist-items" ∈ limit_flags content_type limit ↔
      (content_type = "playlist" ∨ content_type = "channel") ∧ limit ≠ "all" := by
  unfold limit_flags
  split
  · next hcond => simp [hcond]
  · next hcond => simp [hcond]

/-- Claim C8: build_download_command emits the playlist-items range
exactly when the content type is playlist or channel and the limit is
not the word all; and for a video request the limit has no effect on
the produced command at all. The three side conditions only rule out
the degenerate inputs that are themselves the literal flag. -/
theorem playlist_items_flag_iff (url content_type format_type limit ts ua cookie : String)
    (hu : url ≠ "--playlist-items") (ha : ua ≠ "--playlist-items")
    (hc : cookie ≠ "--playlist-items") :
    ("--playlist-items" ∈ build_download_command url content_type format_type limit ts ua cookie ↔
      (content_type = "playlist" ∨ content_type = "channel") ∧ limit ≠ "all") ∧
    (∀ l1 l2 : String,
      build_download_command url "video" format_type l1 ts ua cookie
        = build_download_command url "video" format_type l2 ts ua cookie) := by
  constructor
  · have hbase : "--playlist-items" ∉ base_cmd ua cookie (output_template content_type ts) := by
      intro hmem
      simp only [base_cmd, List.mem_cons, List.not_mem_nil, or_false] at hmem
      rcases hmem with h|h|h|h|h|h|h|h|h|h|h|h|h
      · exact absurd h (by decide)
      · exact absurd h (by decide)
      · exact absurd h (by decide)
      · exact absurd h (by decide)
      · exact absurd h (by decide)
      · exact absurd h (by decide)
      · exact ha h.symm
      · exact absurd h (by decide)
      · exact hc h.symm
      · exact absurd h (by decide)
      · exact output_template_ne_flag content_type ts h.symm
      · exact absurd h (by decide)
      · exact absurd h (by decide)
    have hfmt : "--playlist-items" ∉ format_flags format_type := by
      unfold format_flags
      split
      · decide
      · split
        · decide
        · decide
    have hlast : "--playlist-items" ∉ (["--verbose", url] : List String) := by
      intro hmem
      simp only [List.mem_cons, List.not_mem_nil, or_false] at hmem
      rcases hmem with h|h
      · exact absurd h (by decide)
      · exact hu h.symm
    rw [build_download_command]
    simp only [List.mem_append]
    constructor
    · rintro (((h|h)|h)|h)
      · exact absurd h hbase
      · exact absurd h hfmt
      · exact (limit_flags_iff content_type limit).mp h
      · exact absurd h hlast
    · intro h
      left; right
      exact (limit_flags_iff content_type limit).mpr h
  · intro l1 l2
    have hl : ∀ l : String, limit_flags "video" l = [] := by
      intro l
      unfold limit_flags
      rw [if_neg]
      rintro ⟨hor, _⟩
      rcases hor with h|h
      · exact absurd h (by decide)
      · exact absurd h (by decide)
    rw [build_download_command, build_download_command, hl l1, hl l2]

/-- Claim C8 witness: a playlist request with a numeric limit carries
the flag, and two different limits give the same video command. -/
theorem playlist_items_flag_iff_witness :
    ("--playlist-items" ∈ build_download_command "https://youtu.be/x" "playlist" "best" "5"
      "20240101_120000" "UA" "/tmp/c.txt") ∧
    build_download_command "https://youtu.be/x" "video" "best" "5"
      "20240101_120000" "UA" "/tmp/c.txt"
      = build_download_command "https://youtu.be/x" "video" "best" "all"
      "20240101_120000" "UA" "/tmp/c.txt" := by
  have h := playlist_items_flag_iff "https://youtu.be/x" "playlist" "best" "5"
    "20240101_120000" "UA" "/tmp/c.txt" (by decide) (by decide) (by decide)
  exact ⟨h.1.mpr (by decide), h.2 "5" "all"⟩
